import Mathlib

/-!
Verification development for the spatial-jobs-index backend
(src/backend/app).  Python source is shallowly embedded: SQLAlchemy
queries over a table become pure functions over a list of row records,
exceptions become Except/Option results, and wall-clock time is an
explicit parameter.
-/

namespace SJI

/-! ## A model of JSON values and of Python json.loads

The repositories call the external stdlib function json.loads on the
text produced by ST_AsGeoJSON.  We model JSON values inductively and
json.loads as an executable recursive-descent parser over the JSON
fragment the repository exchanges (null, booleans, integer numbers,
strings, arrays, objects); a parse failure models a raised
json.JSONDecodeError.  All theorems about decode behaviour are stated
parametrically in the outcome of the parse, so only the success/failure
distinction matters.
-/

inductive JVal where
  | null : JVal
  | bool : Bool → JVal
  | num : Int → JVal
  | str : String → JVal
  | arr : List JVal → JVal
  | obj : List (String × JVal) → JVal
deriving Repr

def quoteChar : Char := Char.ofNat 34

def backslashChar : Char := Char.ofNat 92

def lbraceChar : Char := Char.ofNat 123

def rbraceChar : Char := Char.ofNat 125

def skipWs : List Char → List Char
  | [] => []
  | c :: cs =>
    if c = ' ' || c = '\t' || c = '\n' || c = '\r' then skipWs cs else c :: cs

def escChar (c : Char) : Char :=
  if c = 'n' then '\n' else if c = 't' then '\t' else if c = 'r' then '\r' else c

def parseStrBody : Nat → List Char → Option (String × List Char)
  | 0, _ => none
  | _, [] => none
  | fuel + 1, c :: rest =>
    if c = quoteChar then some ("", rest)
    else if c = backslashChar then
      match rest with
      | [] => none
      | e :: rest2 =>
        (parseStrBody fuel rest2).map
          (fun p => (String.singleton (escChar e) ++ p.1, p.2))
    else
      (parseStrBody fuel rest).map (fun p => (String.singleton c ++ p.1, p.2))

def digitsToNat (acc : Nat) : List Char → Nat
  | [] => acc
  | c :: cs => digitsToNat (acc * 10 + (c.toNat - '0'.toNat)) cs

def parseNum : List Char → Option (Int × List Char)
  | [] => none
  | c :: cs =>
    if c = '-' then
      match cs.span Char.isDigit with
      | ([], _) => none
      | (ds, rest) => some (-(digitsToNat 0 ds : Int), rest)
    else
      match (c :: cs).span Char.isDigit with
      | ([], _) => none
      | (ds, rest) => some ((digitsToNat 0 ds : Int), rest)

mutual

def parseVal : Nat → List Char → Option (JVal × List Char)
  | 0, _ => none
  | fuel + 1, cs =>
    match skipWs cs with
    | [] => none
    | 'n' :: 'u' :: 'l' :: 'l' :: rest => some (.null, rest)
    | 't' :: 'r' :: 'u' :: 'e' :: rest => some (.bool true, rest)
    | 'f' :: 'a' :: 'l' :: 's' :: 'e' :: rest => some (.bool false, rest)
    | c :: rest =>
      if c = quoteChar then
        (parseStrBody fuel rest).map (fun p => (JVal.str p.1, p.2))
      else if c = '[' then
        match skipWs rest with
        | ']' :: r2 => some (.arr [], r2)
        | r2 => (parseElems fuel r2).map (fun p => (JVal.arr p.1, p.2))
      else if c = lbraceChar then
        match skipWs rest with
        | r0 :: r2 =>
          if r0 = rbraceChar then some (.obj [], r2)
          else (parseMembers fuel (r0 :: r2)).map (fun p => (JVal.obj p.1, p.2))
        | [] => none
      else
        (parseNum (c :: rest)).map (fun p => (JVal.num p.1, p.2))

def parseElems : Nat → List Char → Option (List JVal × List Char)
  | 0, _ => none
  | fuel + 1, cs =>
    match parseVal fuel cs with
    | none => none
    | some (v, rest) =>
      match skipWs rest with
      | ',' :: r2 => (parseElems fuel r2).map (fun p => (v :: p.1, p.2))
      | ']' :: r2 => some ([v], r2)
      | _ => none

def parseMembers : Nat → List Char → Option (List (String × JVal) × List Char)
  | 0, _ => none
  | fuel + 1, cs =>
    match skipWs cs with
    | c :: rest =>
      if c = quoteChar then
        match parseStrBody fuel rest with
        | none => none
        | some (key, r1) =>
          match skipWs r1 with
          | ':' :: r2 =>
            match parseVal fuel r2 with
            | none => none
            | some (v, r3) =>
              match skipWs r3 with
              | ',' :: r4 =>
                (parseMembers fuel r4).map (fun p => ((key, v) :: p.1, p.2))
              | r5 :: r6 =>
                if r5 = rbraceChar then some ([(key, v)], r6) else none
              | [] => none
          | _ => none
      else none
    | [] => none

end

/-- Model of Python json.loads: none models a raised JSONDecodeError. -/
def jsonLoads (s : String) : Option JVal :=
  match parseVal (s.length + 1) s.data with
  | some (v, rest) => if (skipWs rest).isEmpty then some v else none
  | none => none

/-! ## app/constants.py -/

/-- Color mapping for travel time categories (constants.py). -/
def TIME_CATEGORY_COLORS : List (String × String) :=
  [("< 5", "#1a9850"),
   ("5~10", "#66bd63"),
   ("10~15", "#a6d96a"),
   ("15~20", "#fdae61"),
   ("20~25", "#fee08b"),
   ("25~30", "#f46d43"),
   ("30~45", "#d73027"),
   ("> 45", "#a50026")]

/-- Default color for unknown categories (constants.py). -/
def DEFAULT_COLOR : String := "#808080"

/-- Python dict lookup TIME_CATEGORY_COLORS.get(label, DEFAULT_COLOR), as
used by TravelTimeRepository.get_isochrones_by_geoid and
IsochroneService. -/
def getColor (label : String) : String :=
  (TIME_CATEGORY_COLORS.lookup label).getD DEFAULT_COLOR

/-! ## app/occupation_cache.py: SimpleCache

Python time.time() returns the current wall-clock instant; we pass it
explicitly as a rational parameter.  The Python dict self._cache is an
association list with at most one binding per key; dict deletion and
overwrite are modelled by key erasure and cons.
-/

structure SimpleCache (α : Type) where
  entries : List (String × α × ℚ)
deriving Repr

/-- Remove any binding for the key (models Python del / dict overwrite). -/
def eraseKey {α : Type} (key : String) (l : List (String × α × ℚ)) :
    List (String × α × ℚ) :=
  l.filter (fun e => e.1 ≠ key)

/-- SimpleCache.get: returns the value if now < expiry, otherwise deletes
the expired entry and returns none; returns the possibly-updated cache as
the second component. -/
def cacheGet {α : Type} (c : SimpleCache α) (key : String) (now : ℚ) :
    Option α × SimpleCache α :=
  match c.entries.lookup key with
  | some (v, expiry) =>
    if now < expiry then (some v, c) else (none, ⟨eraseKey key c.entries⟩)
  | none => (none, c)

/-- SimpleCache.set: stores (value, now + ttl_seconds), overwriting any
existing entry for that key. -/
def cacheSet {α : Type} (c : SimpleCache α) (key : String) (value : α)
    (ttl_seconds : ℚ) (now : ℚ) : SimpleCache α :=
  ⟨(key, value, now + ttl_seconds) :: eraseKey key c.entries⟩

/-- SimpleCache.clear: removes all entries. -/
def cacheClear {α : Type} (_c : SimpleCache α) : SimpleCache α := ⟨[]⟩

/-! ## app/database.py: DatabaseConfig.from_env

The process environment is passed explicitly as an association list;
os.getenv returns none for an unset variable.
-/

structure DatabaseConfig where
  username : String
  password : String
  url : String
  database : String
deriving Repr, DecidableEq

def required_vars : List String := ["USERNAME", "PASS", "URL", "DB"]

def pyGetEnv (env : List (String × String)) (v : String) : Option String :=
  env.lookup v

/-- Python truthiness of os.getenv(var): both an unset variable (None) and
a variable set to the empty string are falsy, so both count as missing. -/
def envTruthy (env : List (String × String)) (v : String) : Bool :=
  match pyGetEnv env v with
  | none => false
  | some s => s ≠ ""

/-- Model of sep.join(parts) for sep = comma-space, as used to build the
missing-variables message. -/
def joinComma : List String → String
  | [] => ""
  | [s] => s
  | s :: rest => s ++ ", " ++ joinComma rest

/-- DatabaseConfig.from_env: collects every missing required variable and
raises one RuntimeError naming them all, else assembles the config. -/
def from_env (env : List (String × String)) : Except String DatabaseConfig :=
  let missing_vars := required_vars.filter (fun v => ¬ envTruthy env v)
  if ¬ missing_vars.isEmpty then
    .error ("Missing required environment variables: " ++ joinComma missing_vars)
  else
    .ok { username := (pyGetEnv env "USERNAME").getD ""
        , password := (pyGetEnv env "PASS").getD ""
        , url := (pyGetEnv env "URL").getD ""
        , database := (pyGetEnv env "DB").getD "" }

/-- DatabaseConfig.database_url property. -/
def database_url (c : DatabaseConfig) : String :=
  "postgresql://" ++ c.username ++ ":" ++ c.password ++ "@" ++ c.url ++ "/"
    ++ c.database

/-! ## app/services.py: OccupationService.get_occupations_with_names -/

structure OccupationCodeRow where
  occupation_code : String
  occupation_name : Option String
deriving Repr, DecidableEq

/-- The blank-name test from services.py: "if not name or not
name.strip()" — true for a NULL, empty, or whitespace-only name. -/
def nameIsBlank : Option String → Bool
  | none => true
  | some n => n = "" || n.trim = ""

/-- The query-and-shape core of get_occupations_with_names: rows ordered
by occupation_code, blank names replaced by the code. -/
def get_occupations_with_names (table : List OccupationCodeRow) :
    List (String × String) :=
  (table.mergeSort
      (fun a b => decide (a.occupation_code ≤ b.occupation_code))).map
    (fun r =>
      (r.occupation_code,
       if nameIsBlank r.occupation_name then r.occupation_code
       else r.occupation_name.getD r.occupation_code))

/-- get_occupations_with_names including the TTL-cache policy: the cache
is bypassed when TESTING is set; otherwise a hit is returned as-is and a
miss is computed and stored for 86400 seconds. -/
def get_occupations_with_names_cached (is_testing : Bool)
    (cache : SimpleCache (List (String × String))) (now : ℚ)
    (table : List OccupationCodeRow) :
    List (String × String) × SimpleCache (List (String × String)) :=
  if is_testing then (get_occupations_with_names table, cache)
  else
    match cacheGet cache "get_occupations_with_names" now with
    | (some v, c2) => (v, c2)
    | (none, c2) =>
      let result := get_occupations_with_names table
      (result, cacheSet c2 "get_occupations_with_names" result 86400 now)

/-! ## Geometry codec and repositories

A row's geometry column is embedded as the Option String result of
ST_AsGeoJSON: none for a NULL geometry, otherwise the produced text.
-/

/-- BaseRepository.get_geojson_geometry: json.loads(geojson_str) if
geojson_str else None, with JSONDecodeError caught and converted to
None, so a malformed payload degrades to a null geometry. -/
def get_geojson_geometry (geojson_str : Option String) : Option JVal :=
  match geojson_str with
  | none => none
  | some s =>
    if s = "" then none
    else
      match jsonLoads s with
      | some v => some v
      | none => none

structure OccupationLvlRow where
  geoid : String
  category : String
  openings_2024_zscore : Option ℚ
  jobs_2024_zscore : Option ℚ
  openings_2024_zscore_color : Option String
  geometry : Option String
deriving Repr, DecidableEq

structure OccupationProps where
  geoid : String
  category : String
  openings_2024_zscore : Option ℚ
  jobs_2024_zscore : Option ℚ
  openings_2024_zscore_color : Option String
deriving Repr, DecidableEq

structure OccupationFeature where
  type : String
  geometry : Option JVal
  properties : OccupationProps
deriving Repr

/-- The feature a spatial-occupation row is shaped into: the category
property is the query parameter, the rest comes from the row. -/
def occFeature (category : String) (row : OccupationLvlRow)
    (g : Option JVal) : OccupationFeature :=
  { type := "Feature"
  , geometry := g
  , properties :=
    { geoid := row.geoid
    , category := category
    , openings_2024_zscore := row.openings_2024_zscore
    , jobs_2024_zscore := row.jobs_2024_zscore
    , openings_2024_zscore_color := row.openings_2024_zscore_color } }

/-- One loop iteration of OccupationRepository.get_spatial_data_by_category:
json.loads(row.geometry) if row.geometry else None, with no handler for
JSONDecodeError, so a present-but-malformed geometry raises and the error
propagates (modelled as Except.error). -/
def occ_feature_of_row (category : String) (row : OccupationLvlRow) :
    Except Unit OccupationFeature :=
  match row.geometry with
  | none => .ok (occFeature category row none)
  | some s =>
    if s = "" then .ok (occFeature category row none)
    else
      match jsonLoads s with
      | some v => .ok (occFeature category row (some v))
      | none => .error ()

/-- OccupationRepository.get_spatial_data_by_category. -/
def occupation_repo_spatial_data (table : List OccupationLvlRow)
    (category : String) : Except Unit (List OccupationFeature) :=
  (table.filter (fun r => r.category == category)).mapM
    (occ_feature_of_row category)

structure SchoolOfLvlRow where
  geoid : String
  category : String
  openings_2024_zscore : Option ℚ
  jobs_2024_zscore : Option ℚ
  openings_2024_zscore_color : Option String
  geometry : Option String
deriving Repr, DecidableEq

structure SchoolProps where
  geoid : String
  category : String
  openings_2024_zscore : Option ℚ
  jobs_2024_zscore : Option ℚ
  openings_2024_zscore_color : Option String
deriving Repr, DecidableEq

structure SchoolFeature where
  type : String
  geometry : Option JVal
  properties : SchoolProps
deriving Repr

/-- SchoolOfStudyRepository.get_spatial_data_by_category: both the
PostGIS and the SQLite branch yield a JSON text geometry column; the
json.loads call is wrapped in a try/except (JSONDecodeError, TypeError)
that logs and substitutes None, so this repository never raises on a
malformed geometry. -/
def school_feature_of_row (category : String) (row : SchoolOfLvlRow) :
    SchoolFeature :=
  { type := "Feature"
  , geometry :=
    match row.geometry with
    | none => none
    | some s => if s = "" then none else jsonLoads s
  , properties :=
    { geoid := row.geoid
    , category := category
    , openings_2024_zscore := row.openings_2024_zscore
    , jobs_2024_zscore := row.jobs_2024_zscore
    , openings_2024_zscore_color := row.openings_2024_zscore_color } }

/-- SchoolOfStudyRepository.get_spatial_data_by_category, continued: the
per-category query shaped row by row; total, never an error. -/
def school_repo_spatial_data (table : List SchoolOfLvlRow)
    (category : String) : List SchoolFeature :=
  (table.filter (fun r => r.category == category)).map
    (school_feature_of_row category)

/-- SchoolOfStudyService.get_school_ids: SELECT DISTINCT category. -/
def get_school_ids (table : List SchoolOfLvlRow) : List String :=
  (table.map (fun r => r.category)).eraseDups

/-! ## Isochrones (services.py IsochroneService and
repositories/travel_time.py get_isochrones_by_geoid) -/

structure IsochroneRow where
  geoid : String
  traveltime_category : String
  geometry : Option String
deriving Repr, DecidableEq

/-- The canonical time-category order from the isochrone ORDER BY. -/
def timeCategoryOrder : List String :=
  ["< 5", "5~10", "10~15", "15~20", "20~25", "25~30", "30~45", "> 45"]

/-- The ORDER BY CASE traveltime_category sort key of the isochrone SQL;
a label outside the eight WHEN arms gets NULL, which sorts last in an
ascending Postgres ORDER BY, modelled as rank 9. -/
def caseRank (c : String) : Nat :=
  if c = "< 5" then 1
  else if c = "5~10" then 2
  else if c = "10~15" then 3
  else if c = "15~20" then 4
  else if c = "20~25" then 5
  else if c = "25~30" then 6
  else if c = "30~45" then 7
  else if c = "> 45" then 8
  else 9

/-- Inverse of caseRank on the canonical labels. -/
def caseUnrank (n : Nat) : String :=
  (timeCategoryOrder.getD (n - 1) "")

/-- The isochrone SQL: WHERE geoid = :geoid ORDER BY the CASE mapping. -/
def isochrone_query_rows (table : List IsochroneRow) (geoid : String) :
    List IsochroneRow :=
  (table.filter (fun r => r.geoid == geoid)).mergeSort
    (fun a b =>
      decide (caseRank a.traveltime_category ≤ caseRank b.traveltime_category))

structure IsochroneProps where
  geoid : String
  time_category : String
  color : String
deriving Repr, DecidableEq

structure IsochroneFeature where
  type : String
  geometry : JVal
  properties : IsochroneProps
deriving Repr

/-- One loop iteration of get_isochrones_by_geoid: shapes a queried row
into a feature, resolving its color through TIME_CATEGORY_COLORS.get(…,
gray).  json.loads(row.geometry) is applied unconditionally, so a NULL
geometry (TypeError) or malformed text (JSONDecodeError) raises. -/
def isochrone_feature_of_row (row : IsochroneRow) :
    Except Unit IsochroneFeature :=
  match row.geometry with
  | some s =>
    match jsonLoads s with
    | some v =>
      .ok { type := "Feature"
          , geometry := v
          , properties :=
            { geoid := row.geoid
            , time_category := row.traveltime_category
            , color := getColor row.traveltime_category } }
    | none => .error ()
  | none => .error ()

/-- IsochroneService.get_isochrones_by_geoid (same query and shaping as
TravelTimeRepository.get_isochrones_by_geoid). -/
def get_isochrones_by_geoid (table : List IsochroneRow) (geoid : String) :
    Except Unit (List IsochroneFeature) :=
  (isochrone_query_rows table geoid).mapM isochrone_feature_of_row

/-! ## API handlers (main.py) -/

/-- Python str.isdigit over the ASCII range: nonempty and all digits. -/
def pyIsDigit (s : String) : Bool :=
  !s.isEmpty && s.data.all Char.isDigit

structure HttpReply (α : Type) where
  status : Nat
  detail : String
  payload : Option α
  queries : Nat
deriving Repr

/-- GET /isochrones/(geoid): a non-numeric geoid is rejected with 400
before any query (queries counts SQL statements issued); an empty result
is 404 naming the geoid; an internal exception becomes a 500 (whose
str(e) suffix is elided here since the embedded error carries no
message). -/
def isochrones_endpoint (table : List IsochroneRow) (geoid : String) :
    HttpReply (List IsochroneFeature) :=
  if ¬ pyIsDigit geoid then
    { status := 400, detail := "Invalid geoid format. Must be numeric."
    , payload := none, queries := 0 }
  else
    match get_isochrones_by_geoid table geoid with
    | .error _ =>
      { status := 500, detail := "Internal server error: "
      , payload := none, queries := 1 }
    | .ok feats =>
      if feats.isEmpty then
        { status := 404
        , detail := "No isochrone data found for geoid: " ++ geoid
        , payload := none, queries := 1 }
      else
        { status := 200, detail := "", payload := some feats, queries := 1 }

/-- GET /occupation_data/(category): an empty feature list is 404 naming
the category. -/
def occupation_data_endpoint (table : List OccupationLvlRow)
    (category : String) : HttpReply (List OccupationFeature) :=
  match occupation_repo_spatial_data table category with
  | .error _ =>
    { status := 500, detail := "Internal server error: "
    , payload := none, queries := 1 }
  | .ok feats =>
    if feats.isEmpty then
      { status := 404
      , detail := "No data found for occupation category: " ++ category
      , payload := none, queries := 1 }
    else
      { status := 200, detail := "", payload := some feats, queries := 1 }

/-- GET /school_of_study_ids: a list endpoint; an empty table yields 200
with an empty collection. -/
def school_of_study_ids_endpoint (table : List SchoolOfLvlRow) :
    HttpReply (List String) :=
  { status := 200, detail := "", payload := some (get_school_ids table)
  , queries := 1 }

/-- GET /occupation_ids: a list endpoint; an empty table yields 200 with
an empty collection. -/
def occupation_ids_endpoint (table : List OccupationCodeRow) :
    HttpReply (List (String × String)) :=
  { status := 200, detail := ""
  , payload := some (get_occupations_with_names table), queries := 1 }

/-- GET /school_of_study_data/(category): an empty feature list is 404
naming the category; the school query-and-shape pipeline itself is total
(decode failures degrade to a null geometry), so no 500 branch arises
from it. -/
def school_of_study_data_endpoint (table : List SchoolOfLvlRow)
    (category : String) : HttpReply (List SchoolFeature) :=
  let feats := school_repo_spatial_data table category
  if feats.isEmpty then
    { status := 404
    , detail := "No data found for school category: " ++ category
    , payload := none, queries := 1 }
  else
    { status := 200, detail := "", payload := some feats, queries := 1 }

/-! ## main.py 500 handlers and app/repositories/travel_time.py -/

structure ErrorDetail where
  message : String
  error_code : String
  context : List (String × String)
deriving Repr, DecidableEq

/-- The error_detail dict built by the get_occupation_ids exception
handler for an exception whose str() is excMsg. -/
def occupation_ids_error_detail (excMsg : String) : ErrorDetail :=
  { message := "Internal server error: " ++ excMsg
  , error_code := "INTERNAL_SERVER_ERROR"
  , context := [] }

/-- The detail string built by the get_occupation_spatial_data exception
handler for an exception whose str() is excMsg. -/
def occupation_data_error_detail (excMsg : String) : String :=
  "Internal server error: " ++ excMsg

/-- The fixed generic message the unit tests
(tests/unit/test_error_security.py) require in every 500 body. -/
def genericErrorMessage : String :=
  "An internal error occurred. Please try again later."

structure TTICloneRow where
  geoid : Option ℚ
  all_jobs_zscore : Option ℚ
  all_jobs_zscore_cat : Option String
  living_wage_zscore : Option ℚ
  living_wage_zscore_cat : Option String
  not_living_wage_zscore : Option ℚ
  not_living_wage_zscore_cat : Option String
  geometry : Option String
deriving Repr, DecidableEq

inductive PropVal where
  | null : PropVal
  | num : ℚ → PropVal
  | str : String → PropVal
deriving Repr, DecidableEq

structure WageFeature where
  type : String
  geometry : Option JVal
  properties : List (String × PropVal)
deriving Repr

/-- Python int() truncates toward zero. -/
def pyTruncInt (q : ℚ) : ℤ := if 0 ≤ q then ⌊q⌋ else ⌈q⌉

def pySingleQuote : String := (Char.ofNat 39).toString

/-- Python str() of a list of strings, as interpolated into the
invalid-wage_type message. -/
def pyStrReprList (l : List String) : String :=
  "[" ++ joinComma (l.map (fun s => pySingleQuote ++ s ++ pySingleQuote))
    ++ "]"

def optQToProp : Option ℚ → PropVal
  | none => .null
  | some q => .num q

def optSToProp : Option String → PropVal
  | none => .null
  | some s => .str s

/-- The geoid property str(int(float(row.geoid))), None when NULL; the
numeric content of the geoid text is embedded as a rational. -/
def wageGeoidProp : Option ℚ → PropVal
  | none => .null
  | some q => .str (toString (pyTruncInt q))

/-- The column_mapping dict of get_wage_level_data, in insertion order. -/
def column_mapping :
    List (String × ((TTICloneRow → Option ℚ) × (TTICloneRow → Option String))) :=
  [("all_jobs", (fun r => r.all_jobs_zscore, fun r => r.all_jobs_zscore_cat)),
   ("living_wage",
    (fun r => r.living_wage_zscore, fun r => r.living_wage_zscore_cat)),
   ("not_living_wage",
    (fun r => r.not_living_wage_zscore,
     fun r => r.not_living_wage_zscore_cat))]

/-- The properties dict of one wage feature. -/
def wageProps (wage_type : String) (row : TTICloneRow)
    (zscore : Option ℚ) (zscore_cat : Option String) :
    List (String × PropVal) :=
  [("geoid", wageGeoidProp row.geoid),
   (wage_type ++ "_zscore", optQToProp zscore),
   (wage_type ++ "_zscore_cat", optSToProp zscore_cat)]

/-- One loop iteration of get_wage_level_data: the geometry follows
json.loads(row.geometry) if row.geometry else None with decode errors
propagating, and the selected columns fill the properties dict. -/
def wage_feature_of_row (wage_type : String)
    (cols : (TTICloneRow → Option ℚ) × (TTICloneRow → Option String))
    (row : TTICloneRow) : Except String WageFeature :=
  match row.geometry with
  | none =>
    .ok { type := "Feature", geometry := none
        , properties := wageProps wage_type row (cols.1 row) (cols.2 row) }
  | some s =>
    if s = "" then
      .ok { type := "Feature", geometry := none
          , properties := wageProps wage_type row (cols.1 row) (cols.2 row) }
    else
      match jsonLoads s with
      | some v =>
        .ok { type := "Feature", geometry := some v
            , properties := wageProps wage_type row (cols.1 row) (cols.2 row) }
      | none => .error "JSONDecodeError"

/-- TravelTimeRepository.get_wage_level_data: an unknown wage_type raises
a ValueError naming the value and the valid options before the query is
issued; a valid one selects the matching zscore and category columns. -/
def get_wage_level_data (table : List TTICloneRow) (wage_type : String) :
    Except String (List WageFeature) :=
  match column_mapping.lookup wage_type with
  | none =>
    .error ("Invalid wage_type: " ++ wage_type ++ ". Must be one of: "
      ++ pyStrReprList (column_mapping.map (fun p => p.1)))
  | some cols => table.mapM (wage_feature_of_row wage_type cols)

/-- One loop iteration of get_all_wage_data: all three wage tiers in one
properties dict; geometry follows json.loads(row.geometry) if
row.geometry else None with decode errors propagating. -/
def all_wage_feature_of_row (row : TTICloneRow) :
    Except String WageFeature :=
  let properties : List (String × PropVal) :=
    [("geoid", wageGeoidProp row.geoid),
     ("all_jobs_zscore", optQToProp row.all_jobs_zscore),
     ("all_jobs_zscore_cat", optSToProp row.all_jobs_zscore_cat),
     ("living_wage_zscore", optQToProp row.living_wage_zscore),
     ("living_wage_zscore_cat", optSToProp row.living_wage_zscore_cat),
     ("not_living_wage_zscore", optQToProp row.not_living_wage_zscore),
     ("not_living_wage_zscore_cat",
      optSToProp row.not_living_wage_zscore_cat)]
  match row.geometry with
  | none => .ok { type := "Feature", geometry := none, properties }
  | some s =>
    if s = "" then .ok { type := "Feature", geometry := none, properties }
    else
      match jsonLoads s with
      | some v => .ok { type := "Feature", geometry := some v, properties }
      | none => .error "JSONDecodeError"

/-- TravelTimeRepository.get_all_wage_data: every tract with all three
wage tiers in one pass. -/
def get_all_wage_data (table : List TTICloneRow) :
    Except String (List WageFeature) :=
  table.mapM all_wage_feature_of_row

/-- GET /geojson: a list endpoint over the whole travel-time table; it
performs no emptiness check, so an empty table yields 200 with an empty
feature collection. -/
def geojson_endpoint (table : List TTICloneRow) :
    HttpReply (List WageFeature) :=
  match get_all_wage_data table with
  | .error _ =>
    { status := 500, detail := "Internal server error: "
    , payload := none, queries := 1 }
  | .ok feats =>
    { status := 200, detail := "", payload := some feats, queries := 1 }

/-- The string m contains v as a contiguous substring. -/
def StrContains (m v : String) : Prop := ∃ pre post, m = pre ++ v ++ post

/-! ## Helper lemmas -/

theorem strContains_self (v : String) : StrContains v v :=
  ⟨"", "", by simp⟩

theorem strContains_appL {m v : String} (a : String) (h : StrContains m v) :
    StrContains (a ++ m) v := by
  obtain ⟨p, q, hp⟩ := h
  exact ⟨a ++ p, q, by rw [hp]; simp [String.append_assoc]⟩

theorem strContains_appR {m v : String} (b : String) (h : StrContains m v) :
    StrContains (m ++ b) v := by
  obtain ⟨p, q, hp⟩ := h
  exact ⟨p, q ++ b, by rw [hp]; simp [String.append_assoc]⟩

theorem strContains_trans {m v w : String} (h1 : StrContains m v)
    (h2 : StrContains v w) : StrContains m w := by
  obtain ⟨p, q, hp⟩ := h1
  obtain ⟨p2, q2, hp2⟩ := h2
  exact ⟨p ++ p2, q2 ++ q, by rw [hp, hp2]; simp [String.append_assoc]⟩

theorem joinComma_contains :
    ∀ (l : List String) (v : String), v ∈ l → StrContains (joinComma l) v := by
  intro l
  induction l with
  | nil => intro v hv; cases hv
  | cons s rest ih =>
    intro v hv
    rcases List.mem_cons.mp hv with h | h
    · subst h
      cases rest with
      | nil => exact strContains_self v
      | cons r rs =>
        refine ⟨"", ", " ++ joinComma (r :: rs), ?_⟩
        simp only [joinComma]
        rw [String.empty_append, String.append_assoc]
    · cases rest with
      | nil => cases h
      | cons r rs =>
        have h2 := ih v h
        simp only [joinComma] at h2 ⊢
        exact strContains_appL _ h2

theorem mapM_ok_forall₂ {α β ε : Type} (f : α → Except ε β) :
    ∀ (l : List α) (ys : List β), l.mapM f = .ok ys →
      List.Forall₂ (fun x y => f x = .ok y) l ys := by
  intro l
  induction l with
  | nil =>
    intro ys h
    simp only [List.mapM_nil, pure, Except.pure] at h
    cases h
    exact .nil
  | cons a l ih =>
    intro ys h
    rw [List.mapM_cons] at h
    cases hfa : f a with
    | error e =>
      rw [hfa] at h
      simp [Bind.bind, Except.bind] at h
    | ok b =>
      rw [hfa] at h
      cases hrest : l.mapM f with
      | error e =>
        rw [hrest] at h
        simp [Bind.bind, Except.bind] at h
      | ok bs =>
        rw [hrest] at h
        simp only [Bind.bind, Except.bind, pure, Except.pure] at h
        cases h
        exact List.Forall₂.cons hfa (ih bs hrest)

theorem mapM_error_of_mem {α β : Type} (f : α → Except Unit β) :
    ∀ (l : List α) (x : α), x ∈ l → f x = .error () →
      l.mapM f = .error () := by
  intro l
  induction l with
  | nil => intro x hx; cases hx
  | cons a l ih =>
    intro x hx hfx
    rw [List.mapM_cons]
    rcases List.mem_cons.mp hx with h | h
    · subst h
      rw [hfx]
      rfl
    · cases hfa : f a with
      | error e => cases e; rfl
      | ok b =>
        rw [ih x h hfx]
        rfl

theorem mapM_ok_map {α β ε : Type} (f : α → Except ε β) (g : α → β) :
    ∀ (l : List α), (∀ x ∈ l, f x = .ok (g x)) →
      l.mapM f = .ok (l.map g) := by
  intro l
  induction l with
  | nil => intro _; rfl
  | cons a l ih =>
    intro h
    rw [List.mapM_cons, h a (List.mem_cons_self _ _),
      ih (fun x hx => h x (List.mem_cons_of_mem _ hx))]
    rfl

theorem map_eq_of_forall₂ {α β γ : Type} {R : α → β → Prop}
    (g : β → γ) (t : α → γ) (hpt : ∀ x y, R x y → g y = t x) :
    ∀ {l : List α} {ys : List β}, List.Forall₂ R l ys →
      ys.map g = l.map t := by
  intro l ys h
  induction h with
  | nil => rfl
  | cons hr _ ih => simp [List.map_cons, ih, hpt _ _ hr]

theorem lookup_none_of_keys {β : Type} :
    ∀ (l : List (String × β)) (k : String), (∀ p ∈ l, p.1 ≠ k) →
      l.lookup k = none := by
  intro l
  induction l with
  | nil => intro k _; rfl
  | cons p rest ih =>
    intro k h
    have h1 : p.1 ≠ k := h p (List.mem_cons_self _ _)
    have hk : (k == p.1) = false := by
      simp [beq_iff_eq]
      exact fun e => h1 e.symm
    obtain ⟨a, b⟩ := p
    simp only [List.lookup]
    simp only at hk
    rw [hk]
    exact ih k (fun q hq => h q (List.mem_cons_of_mem _ hq))

theorem lookup_eraseKey_ne {α : Type} (k k2 : String) (hne : k ≠ k2) :
    ∀ (l : List (String × α × ℚ)), (eraseKey k2 l).lookup k = l.lookup k := by
  intro l
  induction l with
  | nil => rfl
  | cons p rest ih =>
    by_cases hp : p.1 = k2
    · have hd : decide (p.1 ≠ k2) = false := by simp [hp]
      simp only [eraseKey, List.filter] at ih ⊢
      rw [hd]
      rw [ih]
      obtain ⟨a, b⟩ := p
      simp only at hp
      have hb : (k == a) = false := by
        simp only [beq_eq_false_iff_ne]
        rw [hp]
        exact hne
      simp only [List.lookup]
      rw [hb]
    · have hd : decide (p.1 ≠ k2) = true := by simp [hp]
      simp only [eraseKey, List.filter] at ih ⊢
      rw [hd]
      obtain ⟨a, b⟩ := p
      simp only [List.lookup]
      cases hab : (k == a) with
      | true => rfl
      | false => exact ih

/-! ## Claim theorems -/

/-- C1: the 500 handlers in main.py interpolate the exception text into
the response body, so at the failing input the body contains the
exception message and the internal hostname, and differs from the fixed
generic message the repository's own security tests require. -/
theorem c1_500_body_leaks_exception_text :
    (occupation_ids_error_detail
        "password authentication failed for user admin at db.internal:5432").message
      = "Internal server error: password authentication failed for user admin at db.internal:5432"
    ∧ StrContains
        (occupation_ids_error_detail
          "password authentication failed for user admin at db.internal:5432").message
        "db.internal"
    ∧ (occupation_ids_error_detail
        "password authentication failed for user admin at db.internal:5432").message
      ≠ genericErrorMessage
    ∧ StrContains
        (occupation_data_error_detail
          "password authentication failed for user admin at db.internal:5432")
        "password authentication failed for user admin at db.internal:5432" := by
  refine ⟨rfl, ⟨"Internal server error: password authentication failed for user admin at ", ":5432", ?_⟩, ?_, ⟨"Internal server error: ", "", ?_⟩⟩
  · rfl
  · decide
  · rfl

/-- C5: label-to-color resolution is total — each of the eight canonical
labels maps to its fixed hex color and every other label maps to the
default gray. -/
theorem c5_color_mapping_totality (label : String) :
    (getColor "< 5" = "#1a9850" ∧ getColor "5~10" = "#66bd63"
      ∧ getColor "10~15" = "#a6d96a" ∧ getColor "15~20" = "#fdae61"
      ∧ getColor "20~25" = "#fee08b" ∧ getColor "25~30" = "#f46d43"
      ∧ getColor "30~45" = "#d73027" ∧ getColor "> 45" = "#a50026")
    ∧ (label ∉ TIME_CATEGORY_COLORS.map (fun p => p.1) →
        getColor label = DEFAULT_COLOR) := by
  constructor
  · exact ⟨rfl, rfl, rfl, rfl, rfl, rfl, rfl, rfl⟩
  · intro h
    have hl : TIME_CATEGORY_COLORS.lookup label = none :=
      lookup_none_of_keys _ label
        (fun p hp heq => h (heq ▸ List.mem_map_of_mem _ hp))
    simp [getColor, hl]

/-- Witness for C5 at the unknown label "purple". -/
theorem c5_witness :
    "purple" ∉ TIME_CATEGORY_COLORS.map (fun p => p.1)
    ∧ getColor "purple" = DEFAULT_COLOR :=
  ⟨by decide, (c5_color_mapping_totality "purple").2 (by decide)⟩

/-- C6: a non-numeric geoid is answered with HTTP 400 and zero SQL
queries are issued for the request. -/
theorem c6_nonnumeric_geoid_400 (table : List IsochroneRow) (geoid : String)
    (h : pyIsDigit geoid = false) :
    isochrones_endpoint table geoid
      = { status := 400, detail := "Invalid geoid format. Must be numeric."
        , payload := none, queries := 0 } := by
  simp [isochrones_endpoint, h]

/-- Witness for C6 at the spec scenario geoid "ABC123". -/
theorem c6_witness :
    pyIsDigit "ABC123" = false
    ∧ isochrones_endpoint [] "ABC123"
      = { status := 400, detail := "Invalid geoid format. Must be numeric."
        , payload := none, queries := 0 } :=
  ⟨by decide, c6_nonnumeric_geoid_400 [] "ABC123" (by decide)⟩

/-- C8: cache get returns the stored value strictly before expiry, and at
or past expiry returns absent while deleting the entry; set and get on a
different key never touch this key's entry (eviction is lazy, only at
this key's own lookup). -/
theorem c8_cache_get_semantics {α : Type} (c : SimpleCache α) (key : String)
    (now : ℚ) :
    (∀ (v : α) (exp : ℚ), c.entries.lookup key = some (v, exp) →
      (now < exp → cacheGet c key now = (some v, c))
      ∧ (exp ≤ now → cacheGet c key now = (none, ⟨eraseKey key c.entries⟩)))
    ∧ (c.entries.lookup key = none → cacheGet c key now = (none, c))
    ∧ (∀ (k2 : String) (v2 : α) (ttl : ℚ), k2 ≠ key →
        (cacheSet c k2 v2 ttl now).entries.lookup key = c.entries.lookup key)
    ∧ (∀ k2 : String, k2 ≠ key →
        (cacheGet c k2 now).2.entries.lookup key = c.entries.lookup key) := by
  refine ⟨?_, ?_, ?_, ?_⟩
  · intro v exp hl
    constructor
    · intro hlt
      simp [cacheGet, hl, hlt]
    · intro hge
      have hnlt : ¬ now < exp := not_lt.mpr hge
      simp [cacheGet, hl, hnlt]
  · intro hl
    simp [cacheGet, hl]
  · intro k2 v2 ttl hne
    have hb : (key == k2) = false := by
      simp only [beq_eq_false_iff_ne]
      exact fun e => hne e.symm
    simp only [cacheSet, List.lookup, hb]
    exact lookup_eraseKey_ne key k2 (fun e => hne e.symm) c.entries
  · intro k2 hne
    cases hl : c.entries.lookup k2 with
    | none => simp [cacheGet, hl]
    | some p =>
      obtain ⟨v, exp⟩ := p
      by_cases hlt : now < exp
      · simp [cacheGet, hl, hlt]
      · simp only [cacheGet, hl, if_neg hlt]
        exact lookup_eraseKey_ne key k2 (fun e => hne e.symm) c.entries

/-- Witness for C8 on a one-entry cache with expiry 10: a get at time 5
hits without eviction, a get at time 10 misses and evicts. -/
theorem c8_witness :
    cacheGet (⟨[("k", 42, 10)]⟩ : SimpleCache ℕ) "k" 5
      = (some 42, ⟨[("k", 42, 10)]⟩)
    ∧ cacheGet (⟨[("k", 42, 10)]⟩ : SimpleCache ℕ) "k" 10 = (none, ⟨[]⟩) := by
  have h5 := (c8_cache_get_semantics (⟨[("k", 42, 10)]⟩ : SimpleCache ℕ) "k" 5).1
    42 10 rfl
  have h10 := (c8_cache_get_semantics (⟨[("k", 42, 10)]⟩ : SimpleCache ℕ) "k" 10).1
    42 10 rfl
  exact ⟨h5.1 (by norm_num), h10.2 (by norm_num)⟩

/-- C9: configuration loading fails with one error naming every missing
required variable, and succeeds with the assembled config when all are
present. -/
theorem c9_config_missing_vars (env : List (String × String))
    (missing : List String)
    (hm : missing = required_vars.filter (fun v => ¬ envTruthy env v)) :
    (missing = [] →
      from_env env = .ok
        { username := (pyGetEnv env "USERNAME").getD ""
        , password := (pyGetEnv env "PASS").getD ""
        , url := (pyGetEnv env "URL").getD ""
        , database := (pyGetEnv env "DB").getD "" })
    ∧ (missing ≠ [] →
        from_env env
          = .error ("Missing required environment variables: "
              ++ joinComma missing)
        ∧ ∀ v ∈ missing,
            StrContains
              ("Missing required environment variables: " ++ joinComma missing)
              v) := by
  constructor
  · intro he
    have hf : required_vars.filter (fun v => ¬ envTruthy env v) = [] :=
      hm.symm.trans he
    simp only [from_env, hf]
    rfl
  · intro hne
    have hie : (required_vars.filter (fun v => ¬ envTruthy env v)).isEmpty
        = false := by
      cases hc : (required_vars.filter (fun v => ¬ envTruthy env v)).isEmpty
      · rfl
      · exact absurd (hm.trans (List.isEmpty_iff.mp hc)) hne
    refine ⟨?_, ?_⟩
    · simp only [from_env]
      rw [hie]
      rw [if_pos (by simp : ¬ (false = true))]
      rw [← hm]
    · intro v hv
      exact strContains_appL _ (joinComma_contains missing v hv)

/-- Witness for C9: with only USERNAME set, the error names PASS, URL and
DB. -/
theorem c9_witness :
    from_env [("USERNAME", "u")]
      = .error ("Missing required environment variables: "
          ++ joinComma ["PASS", "URL", "DB"])
    ∧ ∀ v ∈ ["PASS", "URL", "DB"],
        StrContains
          ("Missing required environment variables: "
            ++ joinComma ["PASS", "URL", "DB"]) v :=
  (c9_config_missing_vars [("USERNAME", "u")] ["PASS", "URL", "DB"] rfl).2
    (by decide)

/-- C3: every row of the occupation-codes table appears in the service
listing under its code; a null, empty, or whitespace-only stored name is
replaced by the code, and a non-blank stored name is kept. -/
theorem c3_blank_name_falls_back_to_code (table : List OccupationCodeRow)
    (r : OccupationCodeRow) (hr : r ∈ table) :
    ∃ e ∈ get_occupations_with_names table,
      e.1 = r.occupation_code
      ∧ (nameIsBlank r.occupation_name = true → e.2 = r.occupation_code)
      ∧ (∀ n, r.occupation_name = some n →
          nameIsBlank r.occupation_name = false → e.2 = n) := by
  have hr2 : r ∈ table.mergeSort
      (fun a b => decide (a.occupation_code ≤ b.occupation_code)) :=
    (List.mergeSort_perm table _).symm.mem_iff.mp hr
  refine ⟨(r.occupation_code,
      if nameIsBlank r.occupation_name then r.occupation_code
      else r.occupation_name.getD r.occupation_code),
    List.mem_map_of_mem _ hr2, rfl, ?_, ?_⟩
  · intro hb
    simp [hb]
  · intro n hn hb
    rw [hn] at hb
    rw [hn]
    simp [hb]

/-- Witness for C3 on the spec scenario seed rows: the empty-name code
15-1251 falls back to itself. -/
theorem c3_witness :
    ∃ e ∈ get_occupations_with_names
        [⟨"15-1251", some ""⟩,
         ⟨"11-1021", some "General and Operations Managers"⟩],
      e.1 = "15-1251" ∧ e.2 = "15-1251" := by
  have h := c3_blank_name_falls_back_to_code
    [⟨"15-1251", some ""⟩,
     ⟨"11-1021", some "General and Operations Managers"⟩]
    ⟨"15-1251", some ""⟩ (by decide)
  obtain ⟨e, he, h1, h2, _⟩ := h
  exact ⟨e, he, h1, h2 (by decide)⟩


theorem strContains_suffix (a v : String) : StrContains (a ++ v) v :=
  ⟨a, "", by simp⟩

/-- C2 counterexample: on a present-but-malformed geometry the
school-of-study repository does not raise — it silently substitutes a
null geometry — and the base codec get_geojson_geometry likewise returns
null, so the claim that every repository propagates a decode error is
false. -/
theorem c2_counterexample :
    jsonLoads "not json" = none
    ∧ school_repo_spatial_data
        [⟨"1", "BHGT", none, none, none, some "not json"⟩] "BHGT"
      = [{ type := "Feature", geometry := none
         , properties := ⟨"1", "BHGT", none, none, none⟩ }]
    ∧ get_geojson_geometry (some "not json") = none :=
  ⟨rfl, rfl, rfl⟩

/-- C2 (amended): an absent geometry converts to null cleanly
everywhere; a present-but-malformed geometry makes
OccupationRepository.get_spatial_data_by_category raise a decode error
that propagates, while BaseRepository.get_geojson_geometry and
SchoolOfStudyRepository.get_spatial_data_by_category catch the decode
error and substitute a null geometry. -/
theorem c2_amended_geometry_decode :
    (get_geojson_geometry none = none)
    ∧ (get_geojson_geometry (some "") = none)
    ∧ (∀ s, jsonLoads s = none → get_geojson_geometry (some s) = none)
    ∧ (∀ (table : List OccupationLvlRow) (category : String)
        (row : OccupationLvlRow) (s : String),
        row ∈ table.filter (fun r => r.category == category) →
        row.geometry = some s → s ≠ "" → jsonLoads s = none →
        occupation_repo_spatial_data table category = .error ())
    ∧ (∀ (table : List OccupationLvlRow) (category : String),
        (∀ r ∈ table.filter (fun r => r.category == category),
          r.geometry = none) →
        occupation_repo_spatial_data table category
          = .ok ((table.filter (fun r => r.category == category)).map
              (fun r => occFeature category r none)))
    ∧ (∀ (table : List SchoolOfLvlRow) (category : String)
        (row : SchoolOfLvlRow) (s : String),
        row ∈ table.filter (fun r => r.category == category) →
        row.geometry = some s → jsonLoads s = none →
        school_feature_of_row category row
            ∈ school_repo_spatial_data table category
          ∧ (school_feature_of_row category row).geometry = none) := by
  refine ⟨rfl, rfl, ?_, ?_, ?_, ?_⟩
  · intro s h
    unfold get_geojson_geometry
    by_cases hs : s = "" <;> simp [hs, h]
  · intro table category row s hmem hgeom hs hj
    unfold occupation_repo_spatial_data
    apply mapM_error_of_mem _ _ row hmem
    simp only [occ_feature_of_row, hgeom, if_neg hs, hj]
  · intro table category hall
    unfold occupation_repo_spatial_data
    apply mapM_ok_map
    intro x hx
    simp only [occ_feature_of_row, hall x hx]
  · intro table category row s hmem hgeom hj
    refine ⟨List.mem_map_of_mem _ hmem, ?_⟩
    by_cases hs : s = "" <;>
      simp [school_feature_of_row, hgeom, hs, hj]

/-- Witness for C2 at concrete malformed-geometry rows: the occupation
repository errors, the school repository keeps the row with a null
geometry. -/
theorem c2_witness :
    occupation_repo_spatial_data
        [⟨"1", "A", none, none, none, some "not json"⟩] "A" = .error ()
    ∧ school_feature_of_row "BHGT"
        ⟨"1", "BHGT", none, none, none, some "not json"⟩
      ∈ school_repo_spatial_data
          [⟨"1", "BHGT", none, none, none, some "not json"⟩] "BHGT" := by
  constructor
  · exact c2_amended_geometry_decode.2.2.2.1
      [⟨"1", "A", none, none, none, some "not json"⟩] "A"
      ⟨"1", "A", none, none, none, some "not json"⟩ "not json"
      (by decide) rfl (by decide) rfl
  · exact (c2_amended_geometry_decode.2.2.2.2.2
      [⟨"1", "BHGT", none, none, none, some "not json"⟩] "BHGT"
      ⟨"1", "BHGT", none, none, none, some "not json"⟩ "not json"
      (by decide) rfl rfl).1

/-- C7: every single-key endpoint (occupation category, school category,
isochrone geoid) whose query yields zero features answers 404 with a
body naming the key, while every list endpoint (occupation ids, school
ids, geojson) over an empty table answers 200 with an empty
collection. -/
theorem c7_not_found_vs_empty (otable : List OccupationLvlRow)
    (category : String) (stable : List SchoolOfLvlRow) (scategory : String)
    (itable : List IsochroneRow) (geoid : String)
    (hocc : otable.filter (fun r => r.category == category) = [])
    (hsch : stable.filter (fun r => r.category == scategory) = [])
    (hdig : pyIsDigit geoid = true)
    (hiso : itable.filter (fun r => r.geoid == geoid) = []) :
    ((occupation_data_endpoint otable category).status = 404
      ∧ StrContains (occupation_data_endpoint otable category).detail
          category)
    ∧ ((school_of_study_data_endpoint stable scategory).status = 404
      ∧ StrContains (school_of_study_data_endpoint stable scategory).detail
          scategory)
    ∧ ((isochrones_endpoint itable geoid).status = 404
      ∧ StrContains (isochrones_endpoint itable geoid).detail geoid)
    ∧ school_of_study_ids_endpoint ([] : List SchoolOfLvlRow)
      = { status := 200, detail := "", payload := some [], queries := 1 }
    ∧ occupation_ids_endpoint ([] : List OccupationCodeRow)
      = { status := 200, detail := "", payload := some [], queries := 1 }
    ∧ geojson_endpoint ([] : List TTICloneRow)
      = { status := 200, detail := "", payload := some [], queries := 1 } := by
  have hrepo : occupation_repo_spatial_data otable category = .ok [] := by
    unfold occupation_repo_spatial_data
    rw [hocc]
    rfl
  have hocc_end : occupation_data_endpoint otable category
      = { status := 404
        , detail := "No data found for occupation category: " ++ category
        , payload := none, queries := 1 } := by
    unfold occupation_data_endpoint
    rw [hrepo]
    rfl
  have hsrepo : school_repo_spatial_data stable scategory = [] := by
    unfold school_repo_spatial_data
    rw [hsch]
    rfl
  have hsch_end : school_of_study_data_endpoint stable scategory
      = { status := 404
        , detail := "No data found for school category: " ++ scategory
        , payload := none, queries := 1 } := by
    unfold school_of_study_data_endpoint
    rw [hsrepo]
    rfl
  have hquery : isochrone_query_rows itable geoid = [] := by
    unfold isochrone_query_rows
    rw [hiso]
    exact List.mergeSort_nil
  have hiso_repo : get_isochrones_by_geoid itable geoid = .ok [] := by
    unfold get_isochrones_by_geoid
    rw [hquery]
    rfl
  have hiso_end : isochrones_endpoint itable geoid
      = { status := 404
        , detail := "No isochrone data found for geoid: " ++ geoid
        , payload := none, queries := 1 } := by
    unfold isochrones_endpoint
    rw [hdig, hiso_repo]
    rfl
  have hids : get_occupations_with_names [] = [] := by
    unfold get_occupations_with_names
    rw [List.mergeSort_nil]
    rfl
  refine ⟨⟨?_, ?_⟩, ⟨?_, ?_⟩, ⟨?_, ?_⟩, rfl, ?_, rfl⟩
  · rw [hocc_end]
  · rw [hocc_end]
    exact strContains_suffix _ _
  · rw [hsch_end]
  · rw [hsch_end]
    exact strContains_suffix _ _
  · rw [hiso_end]
  · rw [hiso_end]
    exact strContains_suffix _ _
  · unfold occupation_ids_endpoint
    rw [hids]

/-- Witness for C7 at the spec scenarios: unknown occupation category
ZZZZ, unknown school category QQQQ, dataless numeric geoid 12345, and
the three list endpoints over empty tables. -/
theorem c7_witness :
    ((occupation_data_endpoint [] "ZZZZ").status = 404
      ∧ StrContains (occupation_data_endpoint [] "ZZZZ").detail "ZZZZ")
    ∧ ((school_of_study_data_endpoint [] "QQQQ").status = 404
      ∧ StrContains (school_of_study_data_endpoint [] "QQQQ").detail "QQQQ")
    ∧ ((isochrones_endpoint [] "12345").status = 404
      ∧ StrContains (isochrones_endpoint [] "12345").detail "12345")
    ∧ school_of_study_ids_endpoint ([] : List SchoolOfLvlRow)
      = { status := 200, detail := "", payload := some [], queries := 1 }
    ∧ occupation_ids_endpoint ([] : List OccupationCodeRow)
      = { status := 200, detail := "", payload := some [], queries := 1 }
    ∧ geojson_endpoint ([] : List TTICloneRow)
      = { status := 200, detail := "", payload := some [], queries := 1 } :=
  c7_not_found_vs_empty [] "ZZZZ" [] "QQQQ" [] "12345" rfl rfl (by decide) rfl

/-- C10: an unknown wage_type makes get_wage_level_data raise a
ValueError naming the invalid value and the three valid options,
independently of the table (so before any query); each valid wage_type
selects the matching zscore and zscore-category columns. -/
theorem c10_wage_type_validation (table t2 : List TTICloneRow)
    (wage_type : String) :
    (wage_type ∉ ["all_jobs", "living_wage", "not_living_wage"] →
      ∃ msg, get_wage_level_data table wage_type = .error msg
        ∧ get_wage_level_data t2 wage_type = .error msg
        ∧ StrContains msg wage_type
        ∧ ∀ w ∈ ["all_jobs", "living_wage", "not_living_wage"],
            StrContains msg w)
    ∧ (∀ fs, get_wage_level_data table "all_jobs" = .ok fs →
        List.Forall₂
          (fun row f => f.properties
            = wageProps "all_jobs" row row.all_jobs_zscore
                row.all_jobs_zscore_cat)
          table fs)
    ∧ (∀ fs, get_wage_level_data table "living_wage" = .ok fs →
        List.Forall₂
          (fun row f => f.properties
            = wageProps "living_wage" row row.living_wage_zscore
                row.living_wage_zscore_cat)
          table fs)
    ∧ (∀ fs, get_wage_level_data table "not_living_wage" = .ok fs →
        List.Forall₂
          (fun row f => f.properties
            = wageProps "not_living_wage" row row.not_living_wage_zscore
                row.not_living_wage_zscore_cat)
          table fs) := by
  have step : ∀ (w : String)
      (cols : (TTICloneRow → Option ℚ) × (TTICloneRow → Option String))
      (row : TTICloneRow) (f : WageFeature),
      wage_feature_of_row w cols row = .ok f →
      f.properties = wageProps w row (cols.1 row) (cols.2 row) := by
    intro w cols row f hrf
    unfold wage_feature_of_row at hrf
    split at hrf
    · cases hrf
      rfl
    · split at hrf
      · cases hrf
        rfl
      · split at hrf
        · cases hrf
          rfl
        · cases hrf
  refine ⟨?_, ?_, ?_, ?_⟩
  · intro hnot
    have hkeys : ∀ p ∈ column_mapping, p.1 ≠ wage_type := by
      intro p hp heq
      apply hnot
      rw [← heq]
      have h2 := List.mem_map_of_mem (fun q => q.1) hp
      rw [show column_mapping.map (fun q => q.1)
            = ["all_jobs", "living_wage", "not_living_wage"] from rfl] at h2
      exact h2
    have hlk : column_mapping.lookup wage_type = none :=
      lookup_none_of_keys _ _ hkeys
    refine ⟨"Invalid wage_type: " ++ wage_type ++ ". Must be one of: "
        ++ pyStrReprList (column_mapping.map (fun p => p.1)), ?_, ?_, ?_, ?_⟩
    · unfold get_wage_level_data
      rw [hlk]
    · unfold get_wage_level_data
      rw [hlk]
    · exact ⟨"Invalid wage_type: ",
        ". Must be one of: "
          ++ pyStrReprList (column_mapping.map (fun p => p.1)),
        by simp [String.append_assoc]⟩
    · intro w hw
      have h1 : StrContains
          (joinComma ((["all_jobs", "living_wage", "not_living_wage"]).map
            (fun s => pySingleQuote ++ s ++ pySingleQuote)))
          (pySingleQuote ++ w ++ pySingleQuote) :=
        joinComma_contains _ _ (List.mem_map_of_mem _ hw)
      have h2 : StrContains (pySingleQuote ++ w ++ pySingleQuote) w :=
        ⟨pySingleQuote, pySingleQuote, rfl⟩
      have h4 : StrContains
          (pyStrReprList (column_mapping.map (fun p => p.1))) w := by
        unfold pyStrReprList
        exact strContains_appR _ (strContains_appL _ (strContains_trans h1 h2))
      exact strContains_appL _ h4
  · intro fs hok
    have hok2 : table.mapM
        (wage_feature_of_row "all_jobs"
          ((fun r => r.all_jobs_zscore), (fun r => r.all_jobs_zscore_cat)))
        = .ok fs := hok
    exact List.Forall₂.imp
      (fun row f h => step "all_jobs"
        ((fun r => r.all_jobs_zscore), (fun r => r.all_jobs_zscore_cat)) row f h)
      (mapM_ok_forall₂ _ table fs hok2)
  · intro fs hok
    have hok2 : table.mapM
        (wage_feature_of_row "living_wage"
          ((fun r => r.living_wage_zscore), (fun r => r.living_wage_zscore_cat)))
        = .ok fs := hok
    exact List.Forall₂.imp
      (fun row f h => step "living_wage"
        ((fun r => r.living_wage_zscore), (fun r => r.living_wage_zscore_cat)) row f h)
      (mapM_ok_forall₂ _ table fs hok2)
  · intro fs hok
    have hok2 : table.mapM
        (wage_feature_of_row "not_living_wage"
          ((fun r => r.not_living_wage_zscore),
           (fun r => r.not_living_wage_zscore_cat)))
        = .ok fs := hok
    exact List.Forall₂.imp
      (fun row f h => step "not_living_wage"
        ((fun r => r.not_living_wage_zscore), (fun r => r.not_living_wage_zscore_cat)) row f h)
      (mapM_ok_forall₂ _ table fs hok2)

/-- Witness for C10: the invalid wage_type "hourly" is rejected with a
message naming it and all three options; a one-row table is shaped from
the living-wage columns. -/
theorem c10_witness :
    (∃ msg, get_wage_level_data [] "hourly" = .error msg
      ∧ StrContains msg "hourly"
      ∧ ∀ w ∈ ["all_jobs", "living_wage", "not_living_wage"],
          StrContains msg w)
    ∧ List.Forall₂
        (fun row f => f.properties
          = wageProps "living_wage" row row.living_wage_zscore
              row.living_wage_zscore_cat)
        [⟨none, some 1, some "H", some 2, some "L", some 3, some "M", none⟩]
        ([{ type := "Feature", geometry := none
          , properties :=
             [("geoid", PropVal.null), ("living_wage_zscore", PropVal.num 2),
              ("living_wage_zscore_cat", PropVal.str "L")] }] :
          List WageFeature) := by
  constructor
  · obtain ⟨msg, h1, _, h3, h4⟩ :=
      (c10_wage_type_validation [] [] "hourly").1 (by decide)
    exact ⟨msg, h1, h3, h4⟩
  · exact (c10_wage_type_validation
      [⟨none, some 1, some "H", some 2, some "L", some 3, some "M", none⟩]
      [] "hourly").2.2.1 _ rfl


/-- C4: the isochrone features for a geoid carry their time-category
labels in the fixed canonical order, restricted to whichever labels exist
for that geoid, regardless of physical storage order. -/
theorem c4_isochrone_canonical_order (table : List IsochroneRow)
    (geoid : String) (feats : List IsochroneFeature)
    (hok : get_isochrones_by_geoid table geoid = .ok feats)
    (hcanon : ∀ r ∈ table.filter (fun r => r.geoid == geoid),
        r.traveltime_category ∈ timeCategoryOrder)
    (hnodup : ((table.filter (fun r => r.geoid == geoid)).map
        (fun r => r.traveltime_category)).Nodup) :
    feats.map (fun f => f.properties.time_category)
      = timeCategoryOrder.filter
          (fun c => ((table.filter (fun r => r.geoid == geoid)).map
            (fun r => r.traveltime_category)).contains c) := by
  have hstep : ∀ (x : IsochroneRow) (y : IsochroneFeature),
      isochrone_feature_of_row x = .ok y →
      y.properties.time_category = x.traveltime_category := by
    intro x y hxy
    unfold isochrone_feature_of_row at hxy
    split at hxy
    · split at hxy
      · cases hxy
        rfl
      · cases hxy
    · cases hxy
  have h1 : feats.map (fun f => f.properties.time_category)
      = (isochrone_query_rows table geoid).map
          (fun r => r.traveltime_category) :=
    map_eq_of_forall₂ _ _ hstep (mapM_ok_forall₂ _ _ _ hok)
  have hperm : (isochrone_query_rows table geoid).Perm
      (table.filter (fun r => r.geoid == geoid)) :=
    List.mergeSort_perm _ _
  have hpermcats :
      ((isochrone_query_rows table geoid).map
        (fun r => r.traveltime_category)).Perm
      ((table.filter (fun r => r.geoid == geoid)).map
          (fun r => r.traveltime_category)) :=
    hperm.map _
  have hsortedS :
      ((isochrone_query_rows table geoid).map
        (fun r => r.traveltime_category)).Pairwise
          (fun a b => caseRank a ≤ caseRank b) := by
    have hs := @List.sorted_mergeSort IsochroneRow
      (fun a b =>
        decide (caseRank a.traveltime_category ≤ caseRank b.traveltime_category))
      (fun a b c hab hbc =>
        decide_eq_true
          (le_trans (of_decide_eq_true hab) (of_decide_eq_true hbc)))
      (fun a b => by
        rcases le_total (caseRank a.traveltime_category)
            (caseRank b.traveltime_category) with h | h <;>
          simp [h])
      (table.filter (fun r => r.geoid == geoid))
    exact List.Pairwise.map _ (fun a b hab => of_decide_eq_true hab) hs
  have hcanfact : ∀ c ∈ timeCategoryOrder, caseUnrank (caseRank c) = c := by
    decide
  have hcanpair : timeCategoryOrder.Pairwise
      (fun a b => caseRank a < caseRank b) := by decide
  have hsortedL2 :
      (timeCategoryOrder.filter
        (fun c => ((table.filter (fun r => r.geoid == geoid)).map
          (fun r => r.traveltime_category)).contains c)).Pairwise
        (fun a b => caseRank a ≤ caseRank b) :=
    (List.Pairwise.sublist (List.filter_sublist _) hcanpair).imp le_of_lt
  have hnodupL2 :
      (timeCategoryOrder.filter
        (fun c => ((table.filter (fun r => r.geoid == geoid)).map
          (fun r => r.traveltime_category)).contains c)).Nodup :=
    List.Nodup.filter _ (by decide)
  have hmemL2 : ∀ x, x ∈ timeCategoryOrder.filter
      (fun c => ((table.filter (fun r => r.geoid == geoid)).map
        (fun r => r.traveltime_category)).contains c)
      ↔ x ∈ (table.filter (fun r => r.geoid == geoid)).map
        (fun r => r.traveltime_category) := by
    intro x
    constructor
    · intro hx
      have hc := (List.mem_filter.mp hx).2
      simpa using hc
    · intro hx
      refine List.mem_filter.mpr ⟨?_, by simpa using hx⟩
      obtain ⟨r, hr, hrx⟩ := List.mem_map.mp hx
      exact hrx ▸ hcanon r hr
  have hpermPL2 :
      ((table.filter (fun r => r.geoid == geoid)).map
        (fun r => r.traveltime_category)).Perm
      (timeCategoryOrder.filter
          (fun c => ((table.filter (fun r => r.geoid == geoid)).map
            (fun r => r.traveltime_category)).contains c)) :=
    List.perm_of_nodup_nodup_toFinset_eq hnodup hnodupL2
      (Finset.ext fun x => by
        simp only [List.mem_toFinset]
        exact (hmemL2 x).symm)
  have hpermSL2 :
      ((isochrone_query_rows table geoid).map
        (fun r => r.traveltime_category)).Perm
      (timeCategoryOrder.filter
          (fun c => ((table.filter (fun r => r.geoid == geoid)).map
            (fun r => r.traveltime_category)).contains c)) :=
    hpermcats.trans hpermPL2
  have hrankeq :
      ((isochrone_query_rows table geoid).map
        (fun r => r.traveltime_category)).map caseRank
      = (timeCategoryOrder.filter
          (fun c => ((table.filter (fun r => r.geoid == geoid)).map
            (fun r => r.traveltime_category)).contains c)).map caseRank := by
    refine List.eq_of_perm_of_sorted (r := fun a b : ℕ => a ≤ b)
      (hpermSL2.map caseRank) ?_ ?_
    · exact List.Pairwise.map _ (fun a b hab => hab) hsortedS
    · exact List.Pairwise.map _ (fun a b hab => hab) hsortedL2
  have hcanS : ∀ c ∈ (isochrone_query_rows table geoid).map
      (fun r => r.traveltime_category), c ∈ timeCategoryOrder := by
    intro c hc
    have hc2 := hpermcats.mem_iff.mp hc
    obtain ⟨r, hr, hrc⟩ := List.mem_map.mp hc2
    exact hrc ▸ hcanon r hr
  have hroundS :
      ((isochrone_query_rows table geoid).map
        (fun r => r.traveltime_category)).map
          (fun c => caseUnrank (caseRank c))
      = (isochrone_query_rows table geoid).map
          (fun r => r.traveltime_category) := by
    rw [List.map_congr_left (fun c hc => hcanfact c (hcanS c hc))]
    exact List.map_id _
  have hroundL2 :
      (timeCategoryOrder.filter
        (fun c => ((table.filter (fun r => r.geoid == geoid)).map
          (fun r => r.traveltime_category)).contains c)).map
            (fun c => caseUnrank (caseRank c))
      = timeCategoryOrder.filter
          (fun c => ((table.filter (fun r => r.geoid == geoid)).map
            (fun r => r.traveltime_category)).contains c) := by
    rw [List.map_congr_left
        (fun c hc => hcanfact c (List.mem_of_mem_filter hc))]
    exact List.map_id _
  rw [h1]
  calc (isochrone_query_rows table geoid).map (fun r => r.traveltime_category)
      = ((isochrone_query_rows table geoid).map
          (fun r => r.traveltime_category)).map
            (fun c => caseUnrank (caseRank c)) := hroundS.symm
    _ = (((isochrone_query_rows table geoid).map
          (fun r => r.traveltime_category)).map caseRank).map caseUnrank :=
        (List.map_map caseUnrank caseRank _).symm
    _ = ((timeCategoryOrder.filter
          (fun c => ((table.filter (fun r => r.geoid == geoid)).map
            (fun r => r.traveltime_category)).contains c)).map caseRank).map
              caseUnrank := by
        rw [hrankeq]
    _ = (timeCategoryOrder.filter
          (fun c => ((table.filter (fun r => r.geoid == geoid)).map
            (fun r => r.traveltime_category)).contains c)).map
              (fun c => caseUnrank (caseRank c)) :=
        List.map_map caseUnrank caseRank _
    _ = timeCategoryOrder.filter
          (fun c => ((table.filter (fun r => r.geoid == geoid)).map
            (fun r => r.traveltime_category)).contains c) := hroundL2

/-- Witness for C4 at the spec scenario: two bands stored out of order
for geoid 12345 come back as < 5 then 5~10 with their fixed colors. -/
theorem c4_witness :
    get_isochrones_by_geoid
        [⟨"12345", "5~10", some "[1]"⟩, ⟨"12345", "< 5", some "[2]"⟩]
        "12345"
      = .ok
        [{ type := "Feature", geometry := .arr [.num 2]
         , properties := ⟨"12345", "< 5", "#1a9850"⟩ },
         { type := "Feature", geometry := .arr [.num 1]
         , properties := ⟨"12345", "5~10", "#66bd63"⟩ }]
    ∧ ([{ type := "Feature", geometry := .arr [.num 2]
        , properties := ⟨"12345", "< 5", "#1a9850"⟩ },
        { type := "Feature", geometry := .arr [.num 1]
        , properties := ⟨"12345", "5~10", "#66bd63"⟩ }] :
        List IsochroneFeature).map (fun f => f.properties.time_category)
      = timeCategoryOrder.filter
          (fun c => ((([⟨"12345", "5~10", some "[1]"⟩,
              ⟨"12345", "< 5", some "[2]"⟩] :
            List IsochroneRow).filter (fun r => r.geoid == "12345")).map
              (fun r => r.traveltime_category)).contains c)
    ∧ timeCategoryOrder.filter
        (fun c => ((([⟨"12345", "5~10", some "[1]"⟩,
            ⟨"12345", "< 5", some "[2]"⟩] :
          List IsochroneRow).filter (fun r => r.geoid == "12345")).map
            (fun r => r.traveltime_category)).contains c)
      = ["< 5", "5~10"] := by
  have hsorted : isochrone_query_rows
      [⟨"12345", "5~10", some "[1]"⟩, ⟨"12345", "< 5", some "[2]"⟩] "12345"
      = [⟨"12345", "< 5", some "[2]"⟩, ⟨"12345", "5~10", some "[1]"⟩] := by
    simp +decide [isochrone_query_rows, List.mergeSort, caseRank]
  have hok : get_isochrones_by_geoid
      [⟨"12345", "5~10", some "[1]"⟩, ⟨"12345", "< 5", some "[2]"⟩] "12345"
      = .ok
        [{ type := "Feature", geometry := .arr [.num 2]
         , properties := ⟨"12345", "< 5", "#1a9850"⟩ },
         { type := "Feature", geometry := .arr [.num 1]
         , properties := ⟨"12345", "5~10", "#66bd63"⟩ }] := by
    unfold get_isochrones_by_geoid
    rw [hsorted]
    rfl
  refine ⟨hok, ?_, by decide⟩
  exact c4_isochrone_canonical_order _ "12345" _ hok (by decide) (by decide)


end SJI
